import Mathlib

/-!
Shallow embedding of `custom_components/goodwe/number.py`: the GoodWe
inverter numeric-settings platform.  Python values are modelled as
follows: machine floats handled by the host (native values) as `ℚ`,
Python `int` as `Int`, exceptions as an `Err` error code threaded through
`Except`, the device handle as a record of the observable behaviours of
the device-library calls this module makes, and device side effects as an
explicit trace of `DeviceCall`s.
-/

namespace GoodweNumber

/-- Exception classes that can escape the device-library calls made in
`number.py`: `goodwe.InverterError`, `ValueError` (both caught by the
setup routine), and any other exception class (`other`), which nothing in
this module catches. -/
inductive Err where
  | inverterError
  | valueError
  | other
deriving DecidableEq, Repr

/-- The structured value returned by `inverter.read_setting("eco_mode_1")`:
an object with `power` and `soc` attributes. -/
structure EcoMode where
  power : Int
  soc : Int
deriving DecidableEq, Repr

/-- A dynamically-typed raw value returned by a descriptor getter: either a
plain integer (grid export limit, battery depth of discharge) or the
optional structured eco-mode value (`None` when absent). -/
inductive RawValue where
  | int (v : Int)
  | eco (v : Option EcoMode)
deriving DecidableEq, Repr

/-- A mutating call issued to the device library by one of the setter
closures in `NUMBERS`. -/
inductive DeviceCall where
  | set_grid_export_limit (val : Int)
  | set_ongrid_battery_dod (val : Int)
deriving DecidableEq, Repr

/-- The integer argument carried by a device setter call. -/
def DeviceCall.val : DeviceCall → Int
  | .set_grid_export_limit v => v
  | .set_ongrid_battery_dod v => v

/-- The device handle (`goodwe.Inverter`).  Its fields record the
observable outcome of each device-library call `number.py` makes:
`typeName` is `type(inv).__name__`, `serial_number` the device serial,
the three read fields give the result of the corresponding async getter,
and `set_result` gives the outcome of a mutating call. -/
structure Inverter where
  typeName : String
  serial_number : String
  grid_export_limit : Except Err Int
  ongrid_battery_dod : Except Err Int
  read_setting : String → Except Err (Option EcoMode)
  set_result : DeviceCall → Except Err Unit

/-- Result of `inv.get_grid_export_limit()`. -/
def Inverter.get_grid_export_limit (inv : Inverter) : Except Err RawValue :=
  inv.grid_export_limit.map RawValue.int

/-- Result of `inv.get_ongrid_battery_dod()`. -/
def Inverter.get_ongrid_battery_dod (inv : Inverter) : Except Err RawValue :=
  inv.ongrid_battery_dod.map RawValue.int

/-- Result of `inv.read_setting(id)`. -/
def Inverter.read_setting_raw (inv : Inverter) (id : String) : Except Err RawValue :=
  (inv.read_setting id).map RawValue.eco

/-- Effect of `inv.set_grid_export_limit(val)`: one device call is issued;
its outcome is whatever the device reports. -/
def Inverter.set_grid_export_limit_call (inv : Inverter) (val : Int) :
    List DeviceCall × Except Err Unit :=
  ([.set_grid_export_limit val], inv.set_result (.set_grid_export_limit val))

/-- Effect of `inv.set_ongrid_battery_dod(val)`. -/
def Inverter.set_ongrid_battery_dod_call (inv : Inverter) (val : Int) :
    List DeviceCall × Except Err Unit :=
  ([.set_ongrid_battery_dod val], inv.set_result (.set_ongrid_battery_dod val))

/-- The host-platform `DeviceInfo` record; opaque to this module, which
only stores and forwards it. -/
structure DeviceInfo where
deriving DecidableEq, Repr

/-- `GoodweNumberEntityDescription`: the host `NumberEntityDescription`
fields plus the four behaviours of `GoodweNumberEntityDescriptionBase`.
A setter returns the trace of device calls it issues together with its
outcome; `none` models `setter=None`. -/
structure GoodweNumberEntityDescription where
  key : String
  name : String
  icon : String
  entity_category : String
  device_class : Option String
  native_unit_of_measurement : String
  native_step : ℚ
  native_min_value : ℚ
  native_max_value : ℚ
  getter : Inverter → Except Err RawValue
  mapper : RawValue → Except Err Int
  setter : Option (Inverter → Int → List DeviceCall × Except Err Unit)
  filter : Inverter → Bool

/-- The identity mapper `lambda v: v`.  In `NUMBERS` it is only ever paired
with integer-returning getters; if it were handed a structured value, the
later `float(current_value)` in the entity constructor would raise an
uncaught `TypeError`, modelled here as `Err.other` (uncaught either way). -/
def mapper_id : RawValue → Except Err Int
  | .int v => .ok v
  | .eco _ => .error .other

/-- The mapper `lambda v: abs(v.power) if v else 0` of the eco-mode power
descriptor.  A plain-integer input has no `power` attribute and would
raise an uncaught `AttributeError`, modelled as `Err.other`; it is
unreachable for the paired getter. -/
def mapper_eco_power : RawValue → Except Err Int
  | .eco (some m) => .ok |m.power|
  | .eco none => .ok 0
  | .int _ => .error .other

/-- The mapper `lambda v: v.soc if v else 0` of the eco-mode SoC
descriptor; the `.int` arm is unreachable as in `mapper_eco_power`. -/
def mapper_eco_soc : RawValue → Except Err Int
  | .eco (some m) => .ok m.soc
  | .eco none => .ok 0
  | .int _ => .error .other

/-- `NUMBERS[0]`: grid export limit in watts, for non-DT inverters. -/
def grid_export_limit_watts : GoodweNumberEntityDescription where
  key := "grid_export_limit"
  name := "Grid export limit"
  icon := "mdi:transmission-tower"
  entity_category := "config"
  device_class := some "power"
  native_unit_of_measurement := "W"
  native_step := 100
  native_min_value := 0
  native_max_value := 10000
  getter := fun inv => inv.get_grid_export_limit
  mapper := mapper_id
  setter := some (fun inv val => inv.set_grid_export_limit_call val)
  filter := fun inv => !(inv.typeName == "DT")

/-- `NUMBERS[1]`: grid export limit in percent, for DT inverters. -/
def grid_export_limit_percent : GoodweNumberEntityDescription where
  key := "grid_export_limit"
  name := "Grid export limit"
  icon := "mdi:transmission-tower"
  entity_category := "config"
  device_class := none
  native_unit_of_measurement := "%"
  native_step := 1
  native_min_value := 0
  native_max_value := 100
  getter := fun inv => inv.get_grid_export_limit
  mapper := mapper_id
  setter := some (fun inv val => inv.set_grid_export_limit_call val)
  filter := fun inv => inv.typeName == "DT"

/-- `NUMBERS[2]`: on-grid battery depth of discharge. -/
def battery_discharge_depth : GoodweNumberEntityDescription where
  key := "battery_discharge_depth"
  name := "Depth of discharge (on-grid)"
  icon := "mdi:battery-arrow-down"
  entity_category := "config"
  device_class := none
  native_unit_of_measurement := "%"
  native_step := 1
  native_min_value := 0
  native_max_value := 99
  getter := fun inv => inv.get_ongrid_battery_dod
  mapper := mapper_id
  setter := some (fun inv val => inv.set_ongrid_battery_dod_call val)
  filter := fun _ => true

/-- `NUMBERS[3]`: eco mode power (read-only: `setter=None`). -/
def eco_mode_power : GoodweNumberEntityDescription where
  key := "eco_mode_power"
  name := "Eco mode power"
  icon := "mdi:battery-charging-low"
  entity_category := "config"
  device_class := none
  native_unit_of_measurement := "%"
  native_step := 1
  native_min_value := 0
  native_max_value := 100
  getter := fun inv => inv.read_setting_raw "eco_mode_1"
  mapper := mapper_eco_power
  setter := none
  filter := fun _ => true

/-- `NUMBERS[4]`: eco mode state of charge (read-only: `setter=None`). -/
def eco_mode_soc : GoodweNumberEntityDescription where
  key := "eco_mode_soc"
  name := "Eco mode SoC"
  icon := "mdi:battery-charging-low"
  entity_category := "config"
  device_class := none
  native_unit_of_measurement := "%"
  native_step := 1
  native_min_value := 0
  native_max_value := 100
  getter := fun inv => inv.read_setting_raw "eco_mode_1"
  mapper := mapper_eco_soc
  setter := none
  filter := fun _ => true

/-- The `NUMBERS` tuple, in source order. -/
def NUMBERS : List GoodweNumberEntityDescription :=
  [grid_export_limit_watts, grid_export_limit_percent, battery_discharge_depth,
   eco_mode_power, eco_mode_soc]

/-- Modelled from the spec: the fixed domain tag `DOMAIN` imported from
`.const`, whose source is not part of the repository snapshot; the spec
says only that it is a fixed tag prefixed to every unique identifier. -/
def DOMAIN : String := "goodwe"

/-- `InverterNumberEntity`: the live entity.  `attr_native_value` is the
cached value (`self._attr_native_value`), `inverter` is `self._inverter`. -/
structure InverterNumberEntity where
  entity_description : GoodweNumberEntityDescription
  attr_unique_id : String
  attr_device_info : DeviceInfo
  attr_native_value : ℚ
  inverter : Inverter

/-- `InverterNumberEntity.__init__`: seeds the cached value with
`float(current_value)` and forms the unique id
`f"{DOMAIN}-{description.key}-{inverter.serial_number}"`. -/
def InverterNumberEntity.init (device_info : DeviceInfo)
    (description : GoodweNumberEntityDescription) (inverter : Inverter)
    (current_value : Int) : InverterNumberEntity where
  entity_description := description
  attr_unique_id := DOMAIN ++ "-" ++ description.key ++ "-" ++ inverter.serial_number
  attr_device_info := device_info
  attr_native_value := (current_value : ℚ)
  inverter := inverter

/-- `description.mapper(await description.getter(inverter))`: the body of
the `try` block in `async_setup_entry`. -/
def readCurrentValue (inverter : Inverter) (description : GoodweNumberEntityDescription) :
    Except Err Int :=
  (description.getter inverter).bind description.mapper

/-- The descriptor loop of `async_setup_entry`, over an explicit list of
(already filtered) descriptors: a read failing with `InverterError` or
`ValueError` skips the descriptor and continues; any other exception
propagates and aborts the whole routine; a successful read appends a fully
constructed entity. -/
def setupEntities (device_info : DeviceInfo) (inverter : Inverter) :
    List GoodweNumberEntityDescription → Except Err (List InverterNumberEntity)
  | [] => .ok []
  | description :: rest =>
    match readCurrentValue inverter description with
    | .ok current_value =>
      (setupEntities device_info inverter rest).map
        (fun es => InverterNumberEntity.init device_info description inverter current_value :: es)
    | .error .inverterError => setupEntities device_info inverter rest
    | .error .valueError => setupEntities device_info inverter rest
    | .error .other => .error .other

/-- `async_setup_entry`: iterate over the descriptors whose filter accepts
the connected inverter, in `NUMBERS` order; on normal return the resulting
list is handed to `async_add_entities` in one batch, so the `.ok` payload
is exactly the set of registered entities. -/
def async_setup_entry (device_info : DeviceInfo) (inverter : Inverter) :
    Except Err (List InverterNumberEntity) :=
  setupEntities device_info inverter (NUMBERS.filter (fun dsc => dsc.filter inverter))

/-- Python `int()` on a float: truncation toward zero. -/
def pyInt (v : ℚ) : Int := if 0 ≤ v then v.floor else v.ceil

/-- Observable outcome of one call to `async_set_native_value`: the entity
state afterwards, the device calls issued, whether
`async_write_ha_state()` ran, and the normal/exceptional return. -/
structure WriteOutcome where
  entity : InverterNumberEntity
  calls : List DeviceCall
  notified : Bool
  result : Except Err Unit

/-- `async_set_native_value(value)`: if the descriptor has a setter, call
it with `int(value)`; an exception there propagates immediately, leaving
the cached value untouched and skipping `async_write_ha_state`; otherwise
set `self._attr_native_value = value` and notify the host. -/
def async_set_native_value (e : InverterNumberEntity) (value : ℚ) : WriteOutcome :=
  match e.entity_description.setter with
  | some s =>
    match s e.inverter (pyInt value) with
    | (calls, .ok _) =>
      { entity := { e with attr_native_value := value }
        calls := calls
        notified := true
        result := .ok () }
    | (calls, .error err) =>
      { entity := e
        calls := calls
        notified := false
        result := .error err }
  | none =>
    { entity := { e with attr_native_value := value }
      calls := []
      notified := true
      result := .ok () }

/-! Sample devices and entities used to instantiate the theorems below. -/

/-- A non-DT inverter on which every device call succeeds. -/
def invOkET : Inverter where
  typeName := "ET"
  serial_number := "SN1"
  grid_export_limit := .ok 100
  ongrid_battery_dod := .ok 50
  read_setting := fun _ => .ok (some ⟨-450, 20⟩)
  set_result := fun _ => .ok ()

/-- A DT inverter on which every device call succeeds. -/
def invDT : Inverter where
  typeName := "DT"
  serial_number := "SN2"
  grid_export_limit := .ok 100
  ongrid_battery_dod := .ok 50
  read_setting := fun _ => .ok (some ⟨-450, 20⟩)
  set_result := fun _ => .ok ()

/-- A non-DT inverter whose every mutating call raises `InverterError`. -/
def invSetFail : Inverter where
  typeName := "ET"
  serial_number := "SN3"
  grid_export_limit := .ok 100
  ongrid_battery_dod := .ok 50
  read_setting := fun _ => .ok (some ⟨-450, 20⟩)
  set_result := fun _ => .error .inverterError

/-- A non-DT inverter whose battery-DoD read raises `InverterError`. -/
def invReadFail : Inverter where
  typeName := "ET"
  serial_number := "SN4"
  grid_export_limit := .ok 100
  ongrid_battery_dod := .error .inverterError
  read_setting := fun _ => .ok (some ⟨-450, 20⟩)
  set_result := fun _ => .ok ()

/-- A watt-based export-limit entity on the healthy inverter. -/
def entW : InverterNumberEntity :=
  InverterNumberEntity.init {} grid_export_limit_watts invOkET 100

/-- An eco-mode power entity (descriptor without setter). -/
def entEco : InverterNumberEntity :=
  InverterNumberEntity.init {} eco_mode_power invOkET 450

/-- A watt-based export-limit entity on the inverter whose writes fail. -/
def entFail : InverterNumberEntity :=
  InverterNumberEntity.init {} grid_export_limit_watts invSetFail 100

/-- The entities `async_setup_entry` registers for `invOkET`. -/
def setupResultET : List InverterNumberEntity :=
  [InverterNumberEntity.init {} grid_export_limit_watts invOkET 100,
   InverterNumberEntity.init {} battery_discharge_depth invOkET 50,
   InverterNumberEntity.init {} eco_mode_power invOkET 450,
   InverterNumberEntity.init {} eco_mode_soc invOkET 20]

/-! Helper lemmas about the setup loop. -/

/-- An entity appears in the output of the setup loop exactly for the
descriptors of the processed list whose read succeeded. -/
theorem setupEntities_mem_iff (device_info : DeviceInfo) (inverter : Inverter)
    (ds : List GoodweNumberEntityDescription) (es : List InverterNumberEntity)
    (h : setupEntities device_info inverter ds = .ok es)
    (d : GoodweNumberEntityDescription) :
    (∃ e ∈ es, e.entity_description = d) ↔
      (d ∈ ds ∧ ∃ cv, readCurrentValue inverter d = .ok cv) := by
  induction ds generalizing es with
  | nil =>
    simp only [setupEntities] at h
    cases h
    simp
  | cons a rest ih =>
    cases hread : readCurrentValue inverter a with
    | ok cv =>
      simp only [setupEntities, hread] at h
      cases hrest : setupEntities device_info inverter rest with
      | ok es2 =>
        rw [hrest] at h
        simp only [Except.map] at h
        cases h
        have hiff := ih es2 hrest
        constructor
        · rintro ⟨e, he, rfl⟩
          rcases List.mem_cons.mp he with rfl | hmem
          · exact ⟨List.mem_cons_self _ _, cv, hread⟩
          · obtain ⟨hd, hcv⟩ := hiff.mp ⟨e, hmem, rfl⟩
            exact ⟨List.mem_cons_of_mem _ hd, hcv⟩
        · rintro ⟨hd, hcv⟩
          rcases List.mem_cons.mp hd with rfl | hmem
          · exact ⟨InverterNumberEntity.init device_info d inverter cv,
              List.mem_cons_self _ _, rfl⟩
          · obtain ⟨e, he, hde⟩ := hiff.mpr ⟨hmem, hcv⟩
            exact ⟨e, List.mem_cons_of_mem _ he, hde⟩
      | error e2 =>
        rw [hrest] at h
        simp [Except.map] at h
    | error err =>
      cases err with
      | inverterError =>
        simp only [setupEntities, hread] at h
        rw [ih es h]
        constructor
        · rintro ⟨hd, hcv⟩
          exact ⟨List.mem_cons_of_mem _ hd, hcv⟩
        · rintro ⟨hd, hcv⟩
          rcases List.mem_cons.mp hd with rfl | hmem
          · obtain ⟨cv, hcv⟩ := hcv
            rw [hread] at hcv
            cases hcv
          · exact ⟨hmem, hcv⟩
      | valueError =>
        simp only [setupEntities, hread] at h
        rw [ih es h]
        constructor
        · rintro ⟨hd, hcv⟩
          exact ⟨List.mem_cons_of_mem _ hd, hcv⟩
        · rintro ⟨hd, hcv⟩
          rcases List.mem_cons.mp hd with rfl | hmem
          · obtain ⟨cv, hcv⟩ := hcv
            rw [hread] at hcv
            cases hcv
          · exact ⟨hmem, hcv⟩
      | other =>
        simp only [setupEntities, hread] at h
        cases h

/-- The descriptors of the entities produced by the setup loop form a
sublist of the processed descriptor list. -/
theorem setupEntities_sublist (device_info : DeviceInfo) (inverter : Inverter)
    (ds : List GoodweNumberEntityDescription) (es : List InverterNumberEntity)
    (h : setupEntities device_info inverter ds = .ok es) :
    (es.map (fun e => e.entity_description)).Sublist ds := by
  induction ds generalizing es with
  | nil =>
    simp only [setupEntities] at h
    cases h
    simp
  | cons a rest ih =>
    cases hread : readCurrentValue inverter a with
    | ok cv =>
      simp only [setupEntities, hread] at h
      cases hrest : setupEntities device_info inverter rest with
      | ok es2 =>
        rw [hrest] at h
        simp only [Except.map] at h
        cases h
        exact List.Sublist.cons₂ a (ih es2 hrest)
      | error e2 =>
        rw [hrest] at h
        simp [Except.map] at h
    | error err =>
      cases err with
      | inverterError =>
        simp only [setupEntities, hread] at h
        exact (ih es h).cons a
      | valueError =>
        simp only [setupEntities, hread] at h
        exact (ih es h).cons a
      | other =>
        simp only [setupEntities, hread] at h
        cases h

/-- Every entity produced by the setup loop has the unique id
`DOMAIN-key-serial` built from its own descriptor key. -/
theorem setupEntities_uid (device_info : DeviceInfo) (inverter : Inverter)
    (ds : List GoodweNumberEntityDescription) (es : List InverterNumberEntity)
    (h : setupEntities device_info inverter ds = .ok es) :
    ∀ e ∈ es, e.attr_unique_id =
      DOMAIN ++ "-" ++ e.entity_description.key ++ "-" ++ inverter.serial_number := by
  induction ds generalizing es with
  | nil =>
    simp only [setupEntities] at h
    cases h
    simp
  | cons a rest ih =>
    cases hread : readCurrentValue inverter a with
    | ok cv =>
      simp only [setupEntities, hread] at h
      cases hrest : setupEntities device_info inverter rest with
      | ok es2 =>
        rw [hrest] at h
        simp only [Except.map] at h
        cases h
        intro e he
        rcases List.mem_cons.mp he with rfl | hmem
        · rfl
        · exact ih es2 hrest e hmem
      | error e2 =>
        rw [hrest] at h
        simp [Except.map] at h
    | error err =>
      cases err with
      | inverterError =>
        simp only [setupEntities, hread] at h
        exact ih es h
      | valueError =>
        simp only [setupEntities, hread] at h
        exact ih es h
      | other =>
        simp only [setupEntities, hread] at h
        cases h

/-- The unique-id format is injective in the descriptor key. -/
theorem uid_key_inj (k₁ k₂ s : String)
    (h : DOMAIN ++ "-" ++ k₁ ++ "-" ++ s = DOMAIN ++ "-" ++ k₂ ++ "-" ++ s) :
    k₁ = k₂ := by
  have hd := congrArg String.data h
  simp only [String.data_append] at hd
  have h1 := List.append_cancel_right hd
  have h2 := List.append_cancel_right h1
  have h3 := List.append_cancel_left h2
  exact String.ext h3

/-- A descriptor whose read fails with a caught exception class is skipped
and the loop continues on the remaining descriptors unchanged. -/
theorem setupEntities_skip (device_info : DeviceInfo) (inverter : Inverter)
    (d : GoodweNumberEntityDescription) (ds₂ : List GoodweNumberEntityDescription)
    (err : Err) (hread : readCurrentValue inverter d = .error err)
    (hcaught : err = .inverterError ∨ err = .valueError)
    (ds₁ : List GoodweNumberEntityDescription) :
    setupEntities device_info inverter (ds₁ ++ d :: ds₂) =
      setupEntities device_info inverter (ds₁ ++ ds₂) := by
  induction ds₁ with
  | nil =>
    rcases hcaught with rfl | rfl <;> simp [setupEntities, hread]
  | cons a ds₁ ih =>
    simp only [List.cons_append, setupEntities, List.append_eq]
    rw [ih]

/-- C1: for every entity built from a `NUMBERS` descriptor that defines a
setter, a user-initiated write of value `V` issues exactly one device
setter call, carrying `int(V)` (the integer truncation of `V`); and when
that call returns successfully the cached value becomes the untruncated
`V` and the host is notified of the state change. -/
theorem write_with_setter_calls_setter_once (e : InverterNumberEntity) (value : ℚ)
    (s : Inverter → Int → List DeviceCall × Except Err Unit)
    (hmem : e.entity_description ∈ NUMBERS)
    (hs : e.entity_description.setter = some s) :
    ∃ c : DeviceCall,
      (async_set_native_value e value).calls = [c] ∧
      c.val = pyInt value ∧
      ((async_set_native_value e value).result = .ok () →
        (async_set_native_value e value).entity.attr_native_value = value ∧
        (async_set_native_value e value).notified = true) := by
  simp only [NUMBERS, List.mem_cons, List.not_mem_nil, or_false] at hmem
  rcases hmem with hd | hd | hd | hd | hd
  · rw [hd] at hs
    simp only [grid_export_limit_watts, Option.some.injEq] at hs
    cases hr : e.inverter.set_result (.set_grid_export_limit (pyInt value)) with
    | ok u =>
      refine ⟨.set_grid_export_limit (pyInt value), ?_, rfl, ?_⟩ <;>
        simp [async_set_native_value, hd, grid_export_limit_watts,
          Inverter.set_grid_export_limit_call, hr]
    | error err =>
      refine ⟨.set_grid_export_limit (pyInt value), ?_, rfl, ?_⟩ <;>
        simp [async_set_native_value, hd, grid_export_limit_watts,
          Inverter.set_grid_export_limit_call, hr]
  · rw [hd] at hs
    simp only [grid_export_limit_percent, Option.some.injEq] at hs
    cases hr : e.inverter.set_result (.set_grid_export_limit (pyInt value)) with
    | ok u =>
      refine ⟨.set_grid_export_limit (pyInt value), ?_, rfl, ?_⟩ <;>
        simp [async_set_native_value, hd, grid_export_limit_percent,
          Inverter.set_grid_export_limit_call, hr]
    | error err =>
      refine ⟨.set_grid_export_limit (pyInt value), ?_, rfl, ?_⟩ <;>
        simp [async_set_native_value, hd, grid_export_limit_percent,
          Inverter.set_grid_export_limit_call, hr]
  · rw [hd] at hs
    simp only [battery_discharge_depth, Option.some.injEq] at hs
    cases hr : e.inverter.set_result (.set_ongrid_battery_dod (pyInt value)) with
    | ok u =>
      refine ⟨.set_ongrid_battery_dod (pyInt value), ?_, rfl, ?_⟩ <;>
        simp [async_set_native_value, hd, battery_discharge_depth,
          Inverter.set_ongrid_battery_dod_call, hr]
    | error err =>
      refine ⟨.set_ongrid_battery_dod (pyInt value), ?_, rfl, ?_⟩ <;>
        simp [async_set_native_value, hd, battery_discharge_depth,
          Inverter.set_ongrid_battery_dod_call, hr]
  · rw [hd] at hs
    simp [eco_mode_power] at hs
  · rw [hd] at hs
    simp [eco_mode_soc] at hs

/-- C2: if the setter call raises during a user-initiated write, the
exception propagates to the caller, the entity state (in particular its
cached value) is unchanged, and no state-change notification is issued. -/
theorem write_setter_failure_is_atomic (e : InverterNumberEntity) (value : ℚ)
    (s : Inverter → Int → List DeviceCall × Except Err Unit) (err : Err)
    (hs : e.entity_description.setter = some s)
    (hfail : (s e.inverter (pyInt value)).2 = .error err) :
    (async_set_native_value e value).result = .error err ∧
    (async_set_native_value e value).entity = e ∧
    (async_set_native_value e value).notified = false := by
  cases hc : s e.inverter (pyInt value) with
  | mk calls r =>
    rw [hc] at hfail
    simp only at hfail
    subst hfail
    simp [async_set_native_value, hs, hc]

/-- C3 (amended): the cached value is updated to the requested value and
the host notified exactly when the write returns normally; when the setter
raises, neither happens (see the counterexample). -/
theorem write_updates_cache_on_normal_return (e : InverterNumberEntity) (value : ℚ)
    (h : (async_set_native_value e value).result = .ok ()) :
    (async_set_native_value e value).entity.attr_native_value = value ∧
    (async_set_native_value e value).notified = true := by
  unfold async_set_native_value at h ⊢
  cases hs : e.entity_description.setter with
  | none => simp
  | some s =>
    cases hc : s e.inverter (pyInt value) with
    | mk calls r =>
      cases r with
      | ok u => simp [hs, hc]
      | error err =>
        rw [hs] at h
        simp only [hc] at h
        cases h

/-- C3 (counterexample): on an entity whose setter fails, a write of `1`
leaves the cached value unchanged (not `1`) and does not notify the host,
so the update is not unconditional. -/
theorem write_not_unconditional_counterexample :
    ¬ ((async_set_native_value entFail 1).entity.attr_native_value = 1 ∧
       (async_set_native_value entFail 1).notified = true) := by
  decide

/-- C6: for an entity whose descriptor has no setter, a user-initiated
write touches the device not at all (no device call is issued), yet the
cached value becomes the requested value and the host is notified. -/
theorem write_without_setter_is_local (e : InverterNumberEntity) (value : ℚ)
    (hs : e.entity_description.setter = none) :
    (async_set_native_value e value).calls = [] ∧
    (async_set_native_value e value).entity.attr_native_value = value ∧
    (async_set_native_value e value).notified = true ∧
    (async_set_native_value e value).result = .ok () := by
  simp [async_set_native_value, hs]

/-- C10: the host is notified only when the write completed normally with
the cache updated; contrapositively, on the failing path (setter raised)
no state-change notification is ever issued. -/
theorem write_notifies_only_after_success (e : InverterNumberEntity) (value : ℚ)
    (h : (async_set_native_value e value).notified = true) :
    (async_set_native_value e value).result = .ok () ∧
    (async_set_native_value e value).entity.attr_native_value = value := by
  unfold async_set_native_value at h ⊢
  cases hs : e.entity_description.setter with
  | none => simp
  | some s =>
    cases hc : s e.inverter (pyInt value) with
    | mk calls r =>
      cases r with
      | ok u => simp [hs, hc]
      | error err =>
        rw [hs] at h
        simp only [hc] at h
        cases h

/-- C4: when setup completes, an entity is registered for a descriptor if
and only if the descriptor's filter accepted the connected device and its
getter-plus-mapper read succeeded; in particular a descriptor whose filter
rejects the device, or whose read fails, gets no entity at all. -/
theorem setup_registers_entity_iff (device_info : DeviceInfo) (inverter : Inverter)
    (es : List InverterNumberEntity)
    (h : async_setup_entry device_info inverter = .ok es)
    (d : GoodweNumberEntityDescription) :
    (∃ e ∈ es, e.entity_description = d) ↔
      (d ∈ NUMBERS ∧ d.filter inverter = true ∧
        ∃ cv, readCurrentValue inverter d = .ok cv) := by
  rw [setupEntities_mem_iff device_info inverter _ es h d, List.mem_filter]
  tauto

/-- C5: a descriptor of the filtered list whose read raises
`InverterError` or `ValueError` is skipped, and setup proceeds on the
remaining descriptors exactly as if the failing one were absent — no
abort, no surfaced error. -/
theorem setup_skips_descriptor_on_caught_error (device_info : DeviceInfo)
    (inverter : Inverter) (ds₁ ds₂ : List GoodweNumberEntityDescription)
    (d : GoodweNumberEntityDescription) (err : Err)
    (hsplit : NUMBERS.filter (fun dsc => dsc.filter inverter) = ds₁ ++ d :: ds₂)
    (hread : readCurrentValue inverter d = .error err)
    (hcaught : err = .inverterError ∨ err = .valueError) :
    async_setup_entry device_info inverter =
      setupEntities device_info inverter (ds₁ ++ ds₂) := by
  rw [async_setup_entry, hsplit]
  exact setupEntities_skip device_info inverter d ds₂ err hread hcaught ds₁

/-- C7: on the structured eco-mode value with `power = -450` and
`soc = 20`, the eco-mode power mapper produces 450 (the absolute value)
and the SoC mapper produces 20; on an absent value both produce 0. -/
theorem eco_mapper_values :
    eco_mode_power.mapper (.eco (some ⟨-450, 20⟩)) = .ok 450 ∧
    eco_mode_soc.mapper (.eco (some ⟨-450, 20⟩)) = .ok 20 ∧
    eco_mode_power.mapper (.eco none) = .ok 0 ∧
    eco_mode_soc.mapper (.eco none) = .ok 0 :=
  ⟨rfl, rfl, rfl, rfl⟩

/-- C8: on a device of model "DT" the filters select the percentage-based
export-limit descriptor (min 0, max 100, step 1) and exclude the
watt-based one; on any other model they select the watt-based descriptor
(min 0, max 10000, step 100) and exclude the percentage-based one. -/
theorem export_limit_filter_selection (inverter : Inverter) :
    (inverter.typeName = "DT" →
      grid_export_limit_percent.filter inverter = true ∧
      grid_export_limit_watts.filter inverter = false) ∧
    (inverter.typeName ≠ "DT" →
      grid_export_limit_watts.filter inverter = true ∧
      grid_export_limit_percent.filter inverter = false) ∧
    grid_export_limit_percent.native_min_value = 0 ∧
    grid_export_limit_percent.native_max_value = 100 ∧
    grid_export_limit_percent.native_step = 1 ∧
    grid_export_limit_watts.native_min_value = 0 ∧
    grid_export_limit_watts.native_max_value = 10000 ∧
    grid_export_limit_watts.native_step = 100 := by
  refine ⟨fun h => ?_, fun h => ?_, rfl, rfl, rfl, rfl, rfl, rfl⟩ <;>
    simp [grid_export_limit_percent, grid_export_limit_watts, h]

/-- C9: every registered entity's unique id is
`DOMAIN ++ "-" ++ key ++ "-" ++ serial_number`, and the entities of one
completed setup have pairwise distinct unique ids (the only key shared by
two descriptors has complementary filters, so at most one of them
survives the filter). -/
theorem setup_unique_ids_distinct (device_info : DeviceInfo) (inverter : Inverter)
    (es : List InverterNumberEntity)
    (h : async_setup_entry device_info inverter = .ok es) :
    (∀ e ∈ es, e.attr_unique_id =
      DOMAIN ++ "-" ++ e.entity_description.key ++ "-" ++ inverter.serial_number) ∧
    es.Pairwise (fun e₁ e₂ => e₁.attr_unique_id ≠ e₂.attr_unique_id) := by
  have huid := setupEntities_uid device_info inverter _ es h
  refine ⟨huid, ?_⟩
  have hsub := setupEntities_sublist device_info inverter _ es h
  have hkeys : ((NUMBERS.filter (fun dsc => dsc.filter inverter)).map
      (fun d => d.key)).Pairwise (fun k₁ k₂ => k₁ ≠ k₂) := by
    cases ht : inverter.typeName == "DT" <;>
      simp [NUMBERS, grid_export_limit_watts, grid_export_limit_percent,
        battery_discharge_depth, eco_mode_power, eco_mode_soc, ht,
        List.pairwise_cons]
  have hsubk := List.Sublist.map (fun d => d.key) hsub
  have hpk := List.Pairwise.sublist hsubk hkeys
  rw [List.map_map, List.pairwise_map] at hpk
  refine List.Pairwise.imp_of_mem ?_ hpk
  intro e₁ e₂ h₁ h₂ hne heq
  apply hne
  rw [huid e₁ h₁, huid e₂ h₂] at heq
  exact uid_key_inj _ _ _ heq

/-- Witness for C1: the watt-based export-limit entity, written with 5/2. -/
theorem write_with_setter_calls_setter_once_witness :
    entW.entity_description ∈ NUMBERS ∧
    entW.entity_description.setter =
      some (fun inv val => inv.set_grid_export_limit_call val) ∧
    ∃ c : DeviceCall,
      (async_set_native_value entW (5/2)).calls = [c] ∧
      c.val = pyInt (5/2) ∧
      ((async_set_native_value entW (5/2)).result = .ok () →
        (async_set_native_value entW (5/2)).entity.attr_native_value = 5/2 ∧
        (async_set_native_value entW (5/2)).notified = true) :=
  ⟨List.mem_cons_self _ _, rfl,
    write_with_setter_calls_setter_once entW (5/2) _ (List.mem_cons_self _ _) rfl⟩

/-- Witness for C2: the entity on the inverter whose writes fail. -/
theorem write_setter_failure_is_atomic_witness :
    entFail.entity_description.setter =
      some (fun inv val => inv.set_grid_export_limit_call val) ∧
    ((fun (inv : Inverter) (val : Int) => inv.set_grid_export_limit_call val)
        entFail.inverter (pyInt 3)).2 = .error .inverterError ∧
    ((async_set_native_value entFail 3).result = .error .inverterError ∧
     (async_set_native_value entFail 3).entity = entFail ∧
     (async_set_native_value entFail 3).notified = false) :=
  ⟨rfl, rfl, write_setter_failure_is_atomic entFail 3 _ .inverterError rfl rfl⟩

/-- Witness for the amended C3: a write that returns normally. -/
theorem write_updates_cache_on_normal_return_witness :
    (async_set_native_value entW 3).result = .ok () ∧
    ((async_set_native_value entW 3).entity.attr_native_value = 3 ∧
     (async_set_native_value entW 3).notified = true) :=
  ⟨rfl, write_updates_cache_on_normal_return entW 3 rfl⟩

/-- Witness for C4: a completed setup on the healthy non-DT inverter. -/
theorem setup_registers_entity_iff_witness :
    async_setup_entry {} invOkET = .ok setupResultET ∧
    ((∃ e ∈ setupResultET, e.entity_description = battery_discharge_depth) ↔
      (battery_discharge_depth ∈ NUMBERS ∧
       battery_discharge_depth.filter invOkET = true ∧
       ∃ cv, readCurrentValue invOkET battery_discharge_depth = .ok cv)) :=
  ⟨rfl, setup_registers_entity_iff {} invOkET setupResultET rfl battery_discharge_depth⟩

/-- Witness for C5: on `invReadFail` the battery-DoD read raises
`InverterError` and setup continues on the remaining descriptors. -/
theorem setup_skips_descriptor_on_caught_error_witness :
    NUMBERS.filter (fun dsc => dsc.filter invReadFail) =
      [grid_export_limit_watts] ++ battery_discharge_depth ::
        [eco_mode_power, eco_mode_soc] ∧
    readCurrentValue invReadFail battery_discharge_depth = .error .inverterError ∧
    (Err.inverterError = .inverterError ∨ Err.inverterError = .valueError) ∧
    async_setup_entry {} invReadFail =
      setupEntities {} invReadFail ([grid_export_limit_watts] ++ [eco_mode_power, eco_mode_soc]) :=
  ⟨rfl, rfl, Or.inl rfl,
    setup_skips_descriptor_on_caught_error {} invReadFail [grid_export_limit_watts]
      [eco_mode_power, eco_mode_soc] battery_discharge_depth .inverterError rfl rfl
      (Or.inl rfl)⟩

/-- Witness for C6: the setter-less eco-mode power entity, written with 7. -/
theorem write_without_setter_is_local_witness :
    entEco.entity_description.setter = none ∧
    ((async_set_native_value entEco 7).calls = [] ∧
     (async_set_native_value entEco 7).entity.attr_native_value = 7 ∧
     (async_set_native_value entEco 7).notified = true ∧
     (async_set_native_value entEco 7).result = .ok ()) :=
  ⟨rfl, write_without_setter_is_local entEco 7 rfl⟩

/-- Witness for C8: a DT device and a non-DT device. -/
theorem export_limit_filter_selection_witness :
    invDT.typeName = "DT" ∧ invOkET.typeName ≠ "DT" ∧
    (grid_export_limit_percent.filter invDT = true ∧
     grid_export_limit_watts.filter invDT = false) ∧
    (grid_export_limit_watts.filter invOkET = true ∧
     grid_export_limit_percent.filter invOkET = false) :=
  ⟨rfl, by decide, (export_limit_filter_selection invDT).1 rfl,
    (export_limit_filter_selection invOkET).2.1 (by decide)⟩

/-- Witness for C9: the setup result on the healthy non-DT inverter. -/
theorem setup_unique_ids_distinct_witness :
    async_setup_entry {} invOkET = .ok setupResultET ∧
    ((∀ e ∈ setupResultET, e.attr_unique_id =
        DOMAIN ++ "-" ++ e.entity_description.key ++ "-" ++ invOkET.serial_number) ∧
      setupResultET.Pairwise (fun e₁ e₂ => e₁.attr_unique_id ≠ e₂.attr_unique_id)) :=
  ⟨rfl, setup_unique_ids_distinct {} invOkET setupResultET rfl⟩

/-- Witness for C10: a notified write (the setter-less entity). -/
theorem write_notifies_only_after_success_witness :
    (async_set_native_value entEco 7).notified = true ∧
    ((async_set_native_value entEco 7).result = .ok () ∧
     (async_set_native_value entEco 7).entity.attr_native_value = 7) :=
  ⟨rfl, write_notifies_only_after_success entEco 7 rfl⟩

end GoodweNumber
